import Mathlib

/-!
Shallow embedding of the mock-interview session engine of the Jarvis-ai
repository (server/routes/interview.js).

The external AI collaborator (Gemini HTTP call) is modelled by the outcome
the route code can observe: the axios call throws (`failure`), the response
body lacks `candidates[0]` (`noCandidates`), or it carries a text
(`text t`, the value of `candidates[0].content.parts[0].text`).  Prompt
construction only feeds the collaborator and is not modelled.  The database
is modelled as a list of session rows; each route handler is a pure
function from the request, the collaborator outcomes and the current
database to a response and an updated database.
-/

namespace Jarvis

/-- Observable outcome of one Gemini API call made by the route code. -/
inductive AIResponse where
  | failure
  | noCandidates
  | text (t : String)
deriving Repr, DecidableEq

/-! ### String helpers

Character-list models of the JavaScript string primitives the route uses
(`trim`, `split`, `toLowerCase`), over the ASCII whitespace characters that
occur in the data involved. -/

/-- ASCII whitespace, as trimmed by `String.prototype.trim`. -/
def isWsChar (c : Char) : Bool :=
  c = ' ' ∨ c = '\n' ∨ c = '\t' ∨ c = '\r'

/-- JavaScript `s.trim()`. -/
def jsTrim (s : String) : String :=
  String.mk (((s.data.dropWhile isWsChar).reverse.dropWhile isWsChar).reverse)

/-- Split a character list at every occurrence of `sep`. -/
def splitOnCharAux (sep : Char) : List Char → List Char → List (List Char)
  | [], acc => [acc.reverse]
  | c :: rest, acc =>
      if c = sep then acc.reverse :: splitOnCharAux sep rest []
      else splitOnCharAux sep rest (c :: acc)

/-- JavaScript `s.split(sep)` for a one-character separator. -/
def splitOnChar (sep : Char) (s : String) : List String :=
  (splitOnCharAux sep s.data []).map String.mk

/-- JavaScript `s.toLowerCase()`. -/
def jsToLower (s : String) : String :=
  String.mk (s.data.map Char.toLower)

/-! ### calculateInterviewScore (interview.js lines 430-480) -/

/-- The first maximal run of decimal digits in a character list:
`text.match(/\d+/)?.[0]` of the source. -/
def firstDigitRunAux : List Char → Option (List Char)
  | [] => none
  | c :: rest =>
      if c.isDigit then some (c :: rest.takeWhile (fun d => d.isDigit))
      else firstDigitRunAux rest

/-- `text.match(/\d+/)?.[0]` : the first maximal digit run of a string. -/
def firstDigitRun (s : String) : Option String :=
  (firstDigitRunAux s.data).map (fun cs => String.mk cs)

/-- `parseInt` on a string of decimal digits. -/
def digitsToNat (s : String) : Nat :=
  s.data.foldl (fun acc c => acc * 10 + (c.toNat - 48)) 0

/-- `calculateInterviewScore`: on a usable response, parse the first integer
found in the text (defaulting to the string "75" when none is found) and
clamp with `Math.max(1, Math.min(100, score))`; on a missing-candidates
response or a thrown axios error, return 75. -/
def calculateInterviewScore (resp : AIResponse) : Int :=
  match resp with
  | .failure => 75
  | .noCandidates => 75
  | .text t =>
      let digits := (firstDigitRun t).getD "75"
      let score : Int := (digitsToNat digits : Int)
      max 1 (min 100 score)

/-! ### generateInterviewFeedback (interview.js lines 375-427) -/

/-- The fixed feedback string returned when the Gemini call fails
(interview.js line 425). -/
def fallbackFeedback : String :=
  "Thank you for completing the interview! We\x27ll review your responses and provide detailed feedback shortly."

/-- `generateInterviewFeedback`: the response text when the call succeeds
with candidates, otherwise the fixed fallback feedback string. -/
def generateInterviewFeedback (resp : AIResponse) : String :=
  match resp with
  | .text t => t
  | _ => fallbackFeedback

/-! ### generateInterviewQuestions (interview.js lines 310-372) -/

/-- The fixed fallback question list (interview.js lines 364-370). -/
def fallbackQuestions : List String :=
  [ "Tell me about yourself and your experience relevant to this role.",
    "What interests you most about this position?",
    "Describe a challenging project you worked on and how you overcame obstacles.",
    "How do you stay updated with the latest technologies in your field?",
    "Where do you see yourself in 5 years?" ]

/-- `text.split(\x27\n\x27).filter(q => q.trim().length > 0)` of the source. -/
def splitLinesNonEmpty (t : String) : List String :=
  (splitOnChar '\n' t).filter (fun q => (jsTrim q) != "")

/-- Skip JSON whitespace (exactly space, newline, tab and carriage return,
the four characters the JSON grammar allows between tokens). -/
def skipWs : List Char → List Char
  | [] => []
  | c :: rest =>
      if c = ' ' ∨ c = '\n' ∨ c = '\t' ∨ c = '\r' then skipWs rest
      else c :: rest

/-- A parsed JSON value.  Numbers keep their source lexeme: no claim
inspects numeric values, only the shape of the parse result matters. -/
inductive Json where
  | null
  | bool (b : Bool)
  | num (lexeme : String)
  | str (s : String)
  | arr (elems : List Json)
  | obj (members : List (String × Json))

/-- Value of one hexadecimal digit, for \u escapes. -/
def hexVal (c : Char) : Option Nat :=
  if '0' ≤ c ∧ c ≤ '9' then some (c.toNat - 48)
  else if 'a' ≤ c ∧ c ≤ 'f' then some (c.toNat - 87)
  else if 'A' ≤ c ∧ c ≤ 'F' then some (c.toNat - 55)
  else none

/-- Parse the body of a JSON string literal after its opening quote,
returning the decoded content and the remaining input.  All JSON escapes
are recognised (\" \\ \/ \b \f \n \r \t \uXXXX) and raw control characters
below U+0020 are rejected, as in JSON.parse.  A \u escape denoting a
surrogate half decodes to U+0000 here (Lean chars are scalar values); only
the success/failure classification of such strings is relied on below.
`fuel` bounds the recursion by the input length. -/
def parseJsonStringBody (fuel : Nat) (cs : List Char) :
    Option (List Char × List Char) :=
  match fuel, cs with
  | 0, _ => none
  | _, [] => none
  | fuel + 1, c :: rest =>
    if c = '"' then some ([], rest)
    else if c = '\\' then
      match rest with
      | [] => none
      | e :: rest2 =>
        if e = '"' ∨ e = '\\' ∨ e = '/' then
          (parseJsonStringBody fuel rest2).map (fun p => (e :: p.1, p.2))
        else if e = 'b' then
          (parseJsonStringBody fuel rest2).map (fun p => ('\x08' :: p.1, p.2))
        else if e = 'f' then
          (parseJsonStringBody fuel rest2).map (fun p => ('\x0c' :: p.1, p.2))
        else if e = 'n' then
          (parseJsonStringBody fuel rest2).map (fun p => ('\n' :: p.1, p.2))
        else if e = 'r' then
          (parseJsonStringBody fuel rest2).map (fun p => ('\r' :: p.1, p.2))
        else if e = 't' then
          (parseJsonStringBody fuel rest2).map (fun p => ('\t' :: p.1, p.2))
        else if e = 'u' then
          match rest2 with
          | h1 :: h2 :: h3 :: h4 :: rest3 =>
            match hexVal h1, hexVal h2, hexVal h3, hexVal h4 with
            | some a, some b, some c2, some d =>
              (parseJsonStringBody fuel rest3).map
                (fun p =>
                  (Char.ofNat (((a * 16 + b) * 16 + c2) * 16 + d) :: p.1, p.2))
            | _, _, _, _ => none
          | _ => none
        else none
    else if c.toNat < 32 then none
    else (parseJsonStringBody fuel rest).map (fun p => (c :: p.1, p.2))

/-- The longest leading run of decimal digits and the rest. -/
def lexDigits (cs : List Char) : List Char × List Char :=
  (cs.takeWhile Char.isDigit, cs.dropWhile Char.isDigit)

/-- Optional fraction part of a JSON number: `. [0-9]+` or nothing. -/
def lexFrac (cs : List Char) : Option (List Char × List Char) :=
  match cs with
  | '.' :: r =>
      match lexDigits r with
      | ([], _) => none
      | (ds, r2) => some ('.' :: ds, r2)
  | _ => some ([], cs)

/-- Optional exponent part of a JSON number: `[eE] [+-]? [0-9]+` or
nothing. -/
def lexExp (cs : List Char) : Option (List Char × List Char) :=
  match cs with
  | [] => some ([], [])
  | e :: r =>
      if e = 'e' ∨ e = 'E' then
        let signRest : List Char × List Char :=
          match r with
          | '+' :: r3 => (['+'], r3)
          | '-' :: r3 => (['-'], r3)
          | _ => ([], r)
        match lexDigits signRest.2 with
        | ([], _) => none
        | (ds, r3) => some (e :: signRest.1 ++ ds, r3)
      else some ([], e :: r)

/-- Lex a JSON number, `-? (0 | [1-9][0-9]*) frac? exp?`, returning its
lexeme and the rest (leading zeros rejected, as in JSON.parse). -/
def lexJsonNumber (cs : List Char) : Option (List Char × List Char) :=
  let negRest : List Char × List Char :=
    match cs with
    | '-' :: r => (['-'], r)
    | _ => ([], cs)
  match negRest.2 with
  | [] => none
  | c :: r =>
    if c = '0' then
      match lexFrac r with
      | none => none
      | some (f, r2) =>
        match lexExp r2 with
        | none => none
        | some (ex, r3) => some (negRest.1 ++ [c] ++ f ++ ex, r3)
    else if c.isDigit then
      match lexDigits r with
      | (ds, r1) =>
        match lexFrac r1 with
        | none => none
        | some (f, r2) =>
          match lexExp r2 with
          | none => none
          | some (ex, r3) => some (negRest.1 ++ [c] ++ ds ++ f ++ ex, r3)
    else none

/-- Match a literal keyword tail (rue, alse, ull) against the input. -/
def stripPrefixChars : List Char → List Char → Option (List Char)
  | [], cs => some cs
  | _ :: _, [] => none
  | p :: ps, c :: cs => if c = p then stripPrefixChars ps cs else none

mutual

/-- Parse one JSON value after skipping leading whitespace.  `fuel`
decreases on every nested value and element, so `2 * length + 2` at the
top level can never run out before the input does. -/
def parseValue : Nat → List Char → Option (Json × List Char)
  | 0, _ => none
  | fuel + 1, cs =>
    match skipWs cs with
    | [] => none
    | c :: rest =>
      if c = '"' then
        (parseJsonStringBody (rest.length + 1) rest).map
          (fun p => (Json.str (String.mk p.1), p.2))
      else if c = '[' then
        match skipWs rest with
        | ']' :: r2 => some (Json.arr [], r2)
        | _ =>
          match parseArrayElems fuel rest with
          | none => none
          | some (vs, r2) => some (Json.arr vs, r2)
      else if c = '\x7b' then
        match skipWs rest with
        | '\x7d' :: r2 => some (Json.obj [], r2)
        | _ =>
          match parseObjMembers fuel rest with
          | none => none
          | some (ms, r2) => some (Json.obj ms, r2)
      else if c = 't' then
        (stripPrefixChars ['r', 'u', 'e'] rest).map
          (fun r2 => (Json.bool true, r2))
      else if c = 'f' then
        (stripPrefixChars ['a', 'l', 's', 'e'] rest).map
          (fun r2 => (Json.bool false, r2))
      else if c = 'n' then
        (stripPrefixChars ['u', 'l', 'l'] rest).map (fun r2 => (Json.null, r2))
      else
        match lexJsonNumber (c :: rest) with
        | none => none
        | some (lex, r2) => some (Json.num (String.mk lex), r2)

/-- Parse one or more comma-separated values up to the closing bracket. -/
def parseArrayElems : Nat → List Char → Option (List Json × List Char)
  | 0, _ => none
  | fuel + 1, cs =>
    match parseValue fuel cs with
    | none => none
    | some (v, r) =>
      match skipWs r with
      | ',' :: r2 =>
        match parseArrayElems fuel r2 with
        | none => none
        | some (vs, r3) => some (v :: vs, r3)
      | ']' :: r2 => some ([v], r2)
      | _ => none

/-- Parse one or more comma-separated string-keyed members up to the
closing brace. -/
def parseObjMembers : Nat → List Char → Option (List (String × Json) × List Char)
  | 0, _ => none
  | fuel + 1, cs =>
    match skipWs cs with
    | '"' :: rest =>
      match parseJsonStringBody (rest.length + 1) rest with
      | none => none
      | some (k, r) =>
        match skipWs r with
        | ':' :: r2 =>
          match parseValue fuel r2 with
          | none => none
          | some (v, r3) =>
            match skipWs r3 with
            | ',' :: r4 =>
              match parseObjMembers fuel r4 with
              | none => none
              | some (ms, r5) => some ((String.mk k, v) :: ms, r5)
            | '\x7d' :: r4 => some ([(String.mk k, v)], r4)
            | _ => none
        | _ => none
    | _ => none

end

/-- Models `JSON.parse(text)`: parse one value of the full JSON grammar
(objects, arrays, strings with all escapes, strict numbers, true/false/
null), requiring the whole input to be consumed; `none` exactly when
JSON.parse throws. -/
def parseJson (t : String) : Option Json :=
  match parseValue (2 * t.length + 2) t.data with
  | none => none
  | some (v, rest) => if skipWs rest = [] then some v else none

mutual

/-- JSON source text of a parsed value, used by questionsOfJson. -/
def serializeJson : Json → String
  | .null => "null"
  | .bool b => if b then "true" else "false"
  | .num s => s
  | .str s => "\x22" ++ s ++ "\x22"
  | .arr vs => "[" ++ serializeList vs ++ "]"
  | .obj ms => "\x7b" ++ serializeMembers ms ++ "\x7d"

/-- Comma-separated serialization of array elements. -/
def serializeList : List Json → String
  | [] => ""
  | [v] => serializeJson v
  | v :: vs => serializeJson v ++ "," ++ serializeList vs

/-- Comma-separated serialization of object members. -/
def serializeMembers : List (String × Json) → String
  | [] => ""
  | [(k, v)] => "\x22" ++ k ++ "\x22:" ++ serializeJson v
  | (k, v) :: ms =>
      "\x22" ++ k ++ "\x22:" ++ serializeJson v ++ "," ++ serializeMembers ms

end

/-- Coercion of the value JSON.parse returned into this model's string-list
typing.  The source returns the parsed value unchanged, whatever its shape;
only an array of strings matches the questions typing the rest of the
pipeline (and the TEXT[] column) expects, and every property proved below
involving this function goes through the parse-failure or AI-failure
branches, so only the some/none classification of parseJson is load
bearing.  A non-string array element (and a non-array value, as a
one-element list) is represented by its JSON source text here. -/
def questionsOfJson : Json → List String
  | .arr vs =>
      vs.map (fun v => match v with | .str s => s | v => serializeJson v)
  | v => [serializeJson v]

/-- `generateInterviewQuestions`: on a usable response, `JSON.parse` the
text and return the parsed value; if parsing throws, split the text into
its non-empty lines; on a missing-candidates response (which throws and is
caught) or a thrown axios error, return the fixed fallback question
list. -/
def generateInterviewQuestions (resp : AIResponse) : List String :=
  match resp with
  | .failure => fallbackQuestions
  | .noCandidates => fallbackQuestions
  | .text t =>
      match parseJson t with
      | some v => questionsOfJson v
      | none => splitLinesNonEmpty t

/-! ### Data model: interview_sessions rows and the database -/

/-- One row of the `interview_sessions` table (init-db.sql lines 28-43),
restricted to the columns the interview routes read or write.  The
questions and answers columns are nullable (`none` before first write);
answers entries are `Option String` because the JavaScript answers array
can have holes (unanswered indices). -/
structure Session where
  id : Int
  user_id : Int
  resume_url : String
  resume_text : String
  jd_text : String
  difficulty : String
  role_type : Option String
  questions_asked : Option (List String)
  answers_given : Option (List (Option String))
  feedback : Option String
  score : Option Int
  created_at : Nat
  completed_at : Option Nat
deriving Repr, DecidableEq

/-- The database, as the list of interview_sessions rows. -/
def DB := List Session

/-- `SELECT * FROM interview_sessions WHERE id = $1 AND user_id = $2`,
taking the first matching row (`rows[0]`). -/
def lookupSession (db : List Session) (sid uid : Int) : Option Session :=
  db.find? (fun s => decide (s.id = sid ∧ s.user_id = uid))

/-- `UPDATE interview_sessions SET ... WHERE id = $n`: apply `f` to every
row whose id matches (the source UPDATE statements filter by id only). -/
def updateSession (db : List Session) (sid : Int) (f : Session → Session) :
    List Session :=
  db.map (fun s => if s.id = sid then f s else s)

/-- JavaScript `arr[i] = v` on an array modelled as `List (Option String)`:
within bounds it overwrites index `i`; past the end it grows the array,
padding the gap with holes. -/
def setAnswerAt (answers : List (Option String)) (i : Nat) (a : String) :
    List (Option String) :=
  if i < answers.length then answers.set i (some a)
  else answers ++ List.replicate (i - answers.length) none ++ [some a]

/-- JavaScript `arr[i]` for an integer index on a string array:
`undefined` (`none`) when negative or out of bounds. -/
def jsGet (l : List String) (i : Int) : Option String :=
  if 0 ≤ i then l.get? i.toNat else none

/-! ### POST /answer (interview.js lines 132-209) -/

/-- The JSON body of a POST /answer request, after express-validator has
checked that `session_id` and `question_index` are integers. -/
structure AnswerRequest where
  session_id : Int
  answer : String
  question_index : Int
deriving Repr, DecidableEq

/-- Outcomes of the two Gemini calls the completion path makes. -/
structure AIEnv where
  feedbackResp : AIResponse
  scoreResp : AIResponse
deriving Repr, DecidableEq

/-- The response of the POST /answer route: 400 on validation failure, 404
when no row matches id and caller, otherwise the completion payload
`{completed: true, feedback, score, next_question: null}` or the
next-question payload `{completed: false, next_question, progress}`. -/
inductive AnswerResponse where
  | validationError
  | notFound
  | completed (feedback : String) (score : Int)
  | nextQuestion (q : Option String) (current : Int) (total : Nat)
      (percentage : Int)
deriving Repr, DecidableEq

/-- `Math.round(((i+1)/N)*100)` of the progress payload, as
`⌊x + 1/2⌋` over the rationals.  The `N = 0` branch is only reachable with
`question_index ≤ -2` (where JavaScript produces a non-finite value) and is
not exercised by any property below. -/
def jsRoundPct (cur : Int) (total : Nat) : Int :=
  if total = 0 then 0 else Int.fdiv (cur * 200 + total) (2 * total)

/-- The POST /answer handler.  express-validator trims the answer in place
and rejects an empty result; the row is looked up by id and caller; the
answer is stored at `question_index` (a negative index creates a
non-element property in JavaScript, which does not survive as array
content — modelled as leaving the array unchanged); completion is entered
exactly when `question_index >= questions.length - 1`. -/
def submitAnswer (db : List Session) (userId : Int) (req : AnswerRequest)
    (ai : AIEnv) (now : Nat) : AnswerResponse × List Session :=
  let answer := jsTrim req.answer
  if answer = "" then (.validationError, db)
  else
    match lookupSession db req.session_id userId with
    | none => (.notFound, db)
    | some session =>
        let questions := session.questions_asked.getD []
        let answers0 := session.answers_given.getD []
        let answers :=
          if 0 ≤ req.question_index then
            setAnswerAt answers0 req.question_index.toNat answer
          else answers0
        let db1 := updateSession db req.session_id
          (fun s => { s with answers_given := some answers })
        if (questions.length : Int) - 1 ≤ req.question_index then
          let feedback := generateInterviewFeedback ai.feedbackResp
          let score := calculateInterviewScore ai.scoreResp
          let db2 := updateSession db1 req.session_id
            (fun s => { s with feedback := some feedback, score := some score,
                               completed_at := some now })
          (.completed feedback score, db2)
        else
          (.nextQuestion (jsGet questions (req.question_index + 1))
            (req.question_index + 1) questions.length
            (jsRoundPct (req.question_index + 1) questions.length), db1)

/-! ### GET /session/:id (interview.js lines 249-284) -/

/-- The projection of a session row returned by GET /session/:id. -/
structure SessionProjection where
  id : Int
  jd_text : String
  difficulty : String
  role_type : Option String
  questions_asked : Option (List String)
  answers_given : Option (List (Option String))
  feedback : Option String
  score : Option Int
  created_at : Nat
  completed_at : Option Nat
  is_completed : Bool
deriving Repr, DecidableEq

/-- Response of GET /session/:id: the projection, or a bare 404. -/
inductive GetSessionResponse where
  | notFound
  | ok (s : SessionProjection)
deriving Repr, DecidableEq

/-- The GET /session/:id handler: look the row up by id and caller; 404
when no row matches, otherwise the projection with
`is_completed = (completed_at !== null)`. -/
def getSession (db : List Session) (userId : Int) (sid : Int) :
    GetSessionResponse :=
  match lookupSession db sid userId with
  | none => .notFound
  | some s =>
      .ok { id := s.id, jd_text := s.jd_text, difficulty := s.difficulty,
            role_type := s.role_type, questions_asked := s.questions_asked,
            answers_given := s.answers_given, feedback := s.feedback,
            score := s.score, created_at := s.created_at,
            completed_at := s.completed_at,
            is_completed := s.completed_at.isSome }

/-! ### POST /start (interview.js lines 46-129), upload filter and
text extraction (lines 29-43 and 287-307) -/

/-- Node `path.extname`: the substring of the basename from its last dot,
empty when the basename has no dot or its only dot is its first
character. -/
def extname (name : String) : String :=
  let base := (splitOnChar '/' name).getLastD ""
  match splitOnChar '.' base with
  | [] => ""
  | [_] => ""
  | p :: rest =>
      if p = "" ∧ rest.length = 1 then ""
      else "." ++ rest.getLastD ""

/-- The extensions accepted by the multer fileFilter (interview.js
line 35). -/
def allowedTypes : List String := [".pdf", ".doc", ".docx", ".txt"]

/-- The multer fileFilter: accept exactly the files whose lower-cased
extension is in `allowedTypes`. -/
def fileFilter (originalname : String) : Bool :=
  allowedTypes.contains (jsToLower (extname originalname))

/-- Outcome of the external text-extraction library call (pdf-parse,
mammoth, or fs.readFileSync) on a supported file. -/
inductive ExtractOutcome where
  | ok (text : String)
  | err
deriving Repr, DecidableEq

/-- `extractTextFromFile`: dispatch on the lower-cased extension; `.pdf`,
`.docx` and `.txt` delegate to the extraction library, every other
extension throws; the surrounding catch rethrows every failure as
"Failed to extract text from file". -/
def extractTextFromFile (originalName : String) (collab : ExtractOutcome) :
    Except String String :=
  let ext := jsToLower (extname originalName)
  if ext = ".pdf" ∨ ext = ".docx" ∨ ext = ".txt" then
    match collab with
    | .ok t => .ok t
    | .err => .error "Failed to extract text from file"
  else .error "Failed to extract text from file"

/-- A POST /start request after multer: the job description text, the
optional difficulty and role type fields, and the original filename of the
uploaded resume when one was sent.  Focus areas only feed the prompt of
the AI collaborator and are not modelled. -/
structure StartRequest where
  jd_text : String
  difficulty : Option String
  role_type : Option String
  file : Option String
deriving Repr, DecidableEq

/-- The collaborator outcomes a /start request can observe, plus the id
the INSERT returns, and the multer-generated stored filename. -/
structure StartEnv where
  questionsResp : AIResponse
  extractOutcome : ExtractOutcome
  nextId : Int
  storedName : String
deriving Repr, DecidableEq

/-- express-validator check on the optional difficulty field. -/
def validDifficulty : Option String → Bool
  | none => true
  | some d => d = "beginner" ∨ d = "intermediate" ∨ d = "advanced"

/-- Response of POST /start: 400 on validation failure, 500 when the
handler throws (text extraction failure), otherwise the success payload
with the session id, the questions and the instructions block whose
estimated duration is `questions.length * 3` to `questions.length * 5`
minutes. -/
inductive StartResponse where
  | validationError
  | serverError
  | ok (session_id : Int) (questions : List String) (total_questions : Nat)
      (difficulty : String) (durationLow : Nat) (durationHigh : Nat)
deriving Repr, DecidableEq

/-- The POST /start handler after validation and extraction: INSERT the
row (questions columns still null), call `generateInterviewQuestions`,
UPDATE `questions_asked`, and answer with the instructions payload. -/
def startCore (db : List Session) (userId : Int) (jd : String)
    (difficulty : String) (roleType : Option String)
    (resumeUrl resumeText : String) (env : StartEnv) (now : Nat) :
    StartResponse × List Session :=
  let row : Session :=
    { id := env.nextId, user_id := userId, resume_url := resumeUrl,
      resume_text := resumeText, jd_text := jd, difficulty := difficulty,
      role_type := roleType, questions_asked := none, answers_given := none,
      feedback := none, score := none, created_at := now,
      completed_at := none }
  let db1 := db ++ [row]
  let questions := generateInterviewQuestions env.questionsResp
  let db2 := updateSession db1 env.nextId
    (fun s => { s with questions_asked := some questions })
  (.ok env.nextId questions questions.length difficulty
    (questions.length * 3) (questions.length * 5), db2)

/-- The POST /start handler.  express-validator trims `jd_text` in place
and rejects an empty result and an invalid difficulty; when a resume file
was uploaded its text is extracted before the INSERT, so an extraction
failure is caught as a 500 with no row created; the difficulty defaults to
"intermediate". -/
def startInterview (db : List Session) (userId : Int) (req : StartRequest)
    (env : StartEnv) (now : Nat) : StartResponse × List Session :=
  let jd := jsTrim req.jd_text
  if jd = "" then (.validationError, db)
  else if ¬ validDifficulty req.difficulty then (.validationError, db)
  else
    let difficulty := req.difficulty.getD "intermediate"
    match req.file with
    | some name =>
        match extractTextFromFile name env.extractOutcome with
        | .error _ => (.serverError, db)
        | .ok resumeText =>
            startCore db userId jd difficulty req.role_type
              ("/uploads/resumes/" ++ env.storedName) resumeText env now
    | none =>
        startCore db userId jd difficulty req.role_type "" "" env now

/-! ### Concrete fixtures used to evaluate the handlers -/

/-- A one-question session that has already completed. -/
def completedSession : Session :=
  { id := 1, user_id := 7, resume_url := "", resume_text := "",
    jd_text := "Backend engineer role", difficulty := "intermediate",
    role_type := none, questions_asked := some ["Q1"],
    answers_given := some [some "A1"], feedback := some "original feedback",
    score := some 50, created_at := 10, completed_at := some 20 }

/-- An active three-question session with no recorded answers. -/
def threeQSession : Session :=
  { id := 2, user_id := 7, resume_url := "", resume_text := "",
    jd_text := "Backend engineer role", difficulty := "intermediate",
    role_type := none, questions_asked := some ["Q1", "Q2", "Q3"],
    answers_given := none, feedback := none, score := none,
    created_at := 10, completed_at := none }

/-- An active session owned by user 8. -/
def foreignSession : Session :=
  { id := 3, user_id := 8, resume_url := "", resume_text := "",
    jd_text := "Backend engineer role", difficulty := "intermediate",
    role_type := none, questions_asked := some ["Q1"],
    answers_given := none, feedback := none, score := none,
    created_at := 10, completed_at := none }

/-- An active three-question session whose first question already has a
recorded answer. -/
def answeredSession : Session :=
  { id := 4, user_id := 7, resume_url := "", resume_text := "",
    jd_text := "Backend engineer role", difficulty := "intermediate",
    role_type := none, questions_asked := some ["Q1", "Q2", "Q3"],
    answers_given := some [some "first try"], feedback := none,
    score := none, created_at := 10, completed_at := none }

/-- An active session whose stored questions list is empty. -/
def emptyQSession : Session :=
  { id := 5, user_id := 7, resume_url := "", resume_text := "",
    jd_text := "Backend engineer role", difficulty := "intermediate",
    role_type := none, questions_asked := some [],
    answers_given := none, feedback := none, score := none,
    created_at := 10, completed_at := none }

/-! ## Helper lemmas -/

theorem lookupSession_props (db : List Session) (sid uid : Int) (s : Session)
    (hfind : lookupSession db sid uid = some s) :
    s.id = sid ∧ s.user_id = uid := by
  have := List.find?_some hfind
  simpa using this

theorem lookupSession_update (db : List Session) (sid uid : Int)
    (f : Session → Session)
    (hid : ∀ x, (f x).id = x.id) (huid : ∀ x, (f x).user_id = x.user_id)
    (s : Session) (hfind : lookupSession db sid uid = some s) :
    lookupSession (updateSession db sid f) sid uid = some (f s) := by
  have hsid : s.id = sid := (lookupSession_props db sid uid s hfind).1
  unfold lookupSession updateSession at *
  rw [List.find?_map]
  have hcomp :
      ((fun x => decide (x.id = sid ∧ x.user_id = uid)) ∘
        (fun x => if x.id = sid then f x else x))
      = (fun x => decide (x.id = sid ∧ x.user_id = uid)) := by
    funext x
    by_cases hx : x.id = sid <;> simp [Function.comp, hx, hid, huid]
  rw [hcomp, hfind]
  simp [hsid]

theorem lookupSession_none (db : List Session) (sid uid : Int)
    (hforeign : ∀ s ∈ db, s.id = sid → s.user_id ≠ uid) :
    lookupSession db sid uid = none := by
  apply List.find?_eq_none.mpr
  intro s hs
  simp only [decide_eq_true_eq, not_and]
  exact fun h1 h2 => hforeign s hs h1 h2

/-- Shared shape of the completion branch of submitAnswer: when the row is
found, the answer is non-empty after trimming, and the index reaches
`questions.length - 1`, the response is the completion payload and the
stored row gets the regenerated feedback, score and completed_at. -/
theorem submitAnswer_complete (db : List Session) (uid : Int)
    (req : AnswerRequest) (ai : AIEnv) (now : Nat) (s : Session)
    (hfind : lookupSession db req.session_id uid = some s)
    (hans : jsTrim req.answer ≠ "")
    (hlast : ((s.questions_asked.getD []).length : Int) - 1
      ≤ req.question_index) :
    (submitAnswer db uid req ai now).1
      = .completed (generateInterviewFeedback ai.feedbackResp)
          (calculateInterviewScore ai.scoreResp) ∧
    lookupSession (submitAnswer db uid req ai now).2 req.session_id uid
      = some { s with
          answers_given := some (if 0 ≤ req.question_index then
            setAnswerAt (s.answers_given.getD []) req.question_index.toNat
              (jsTrim req.answer)
            else s.answers_given.getD []),
          feedback := some (generateInterviewFeedback ai.feedbackResp),
          score := some (calculateInterviewScore ai.scoreResp),
          completed_at := some now } := by
  refine ⟨by simp only [submitAnswer, hfind, if_neg hans, if_pos hlast], ?_⟩
  simp only [submitAnswer, hfind, if_neg hans, if_pos hlast]
  have h1 := lookupSession_update db req.session_id uid
    (fun x => { x with answers_given := some (if 0 ≤ req.question_index then
      setAnswerAt (s.answers_given.getD []) req.question_index.toNat
        (jsTrim req.answer) else s.answers_given.getD []) })
    (fun _ => rfl) (fun _ => rfl) s hfind
  have h2 := lookupSession_update _ req.session_id uid
    (fun x => { x with
      feedback := some (generateInterviewFeedback ai.feedbackResp),
      score := some (calculateInterviewScore ai.scoreResp),
      completed_at := some now })
    (fun _ => rfl) (fun _ => rfl) _ h1
  exact h2

/-! ## Claims -/

/-- C4: if the AI collaborator call fails (axios throws), or the response
lacks candidates, or the response text contains no parsable integer,
calculateInterviewScore returns exactly 75. -/
theorem C4_default_score (t : String) :
    calculateInterviewScore .failure = 75 ∧
    calculateInterviewScore .noCandidates = 75 ∧
    (firstDigitRun t = none → calculateInterviewScore (.text t) = 75) := by
  refine ⟨rfl, rfl, fun h => ?_⟩
  simp only [calculateInterviewScore, h, Option.getD]
  decide

theorem C4_witness :
    calculateInterviewScore (.text "The answers show promise") = 75 :=
  (C4_default_score "The answers show promise").2.2 (by decide)

/-- C5: calculateInterviewScore clamps any parsed value into [1,100] with
Math.max(1, Math.min(100, score)), so the returned score is always an
integer in [1,100]. -/
theorem C5_score_clamped (resp : AIResponse) (t d : String)
    (h : firstDigitRun t = some d) :
    (1 ≤ calculateInterviewScore resp ∧ calculateInterviewScore resp ≤ 100) ∧
    calculateInterviewScore (.text t)
      = max 1 (min 100 ((digitsToNat d : Int))) := by
  constructor
  · cases resp with
    | failure => exact ⟨by norm_num [calculateInterviewScore],
        by norm_num [calculateInterviewScore]⟩
    | noCandidates => exact ⟨by norm_num [calculateInterviewScore],
        by norm_num [calculateInterviewScore]⟩
    | text t2 =>
        refine ⟨le_max_left _ _, max_le (by norm_num) (min_le_left _ _)⟩
  · simp [calculateInterviewScore, h]

theorem C5_witness :
    calculateInterviewScore (.text "Score: 150") = 100 ∧
    1 ≤ calculateInterviewScore (.text "Score: 150") ∧
    calculateInterviewScore (.text "Score: 150") ≤ 100 := by
  have h := C5_score_clamped (.text "Score: 150") "Score: 150" "150" (by decide)
  exact ⟨by rw [h.2]; decide, h.1.1, h.1.2⟩

/-- C3 counterexample: a malformed (non-JSON-array) response text does NOT
produce the fixed fallback list — the source splits such a text into its
non-empty lines instead. -/
theorem C3_counterexample :
    parseJson "Tell me about your background" = none ∧
    generateInterviewQuestions (.text "Tell me about your background")
      ≠ fallbackQuestions ∧
    generateInterviewQuestions (.text "Tell me about your background")
      = ["Tell me about your background"] := by
  refine ⟨rfl, by decide, by decide⟩

/-- C3 (amended): if the AI collaborator call fails, or its response lacks
candidates, generateInterviewQuestions returns exactly the fixed built-in
list of 5 generic questions and the start request still succeeds; a
successful response whose text is not parsable JSON is instead split into
its non-empty lines (not replaced by the fallback). -/
theorem C3_fallback_questions (db : List Session) (uid : Int)
    (req : StartRequest) (env : StartEnv) (now : Nat) (t : String)
    (hjd : jsTrim req.jd_text ≠ "")
    (hdiff : validDifficulty req.difficulty)
    (hfile : req.file = none)
    (hai : env.questionsResp = .failure ∨ env.questionsResp = .noCandidates)
    (ht : parseJson t = none) :
    generateInterviewQuestions env.questionsResp = fallbackQuestions ∧
    fallbackQuestions.length = 5 ∧
    (startInterview db uid req env now).1
      = .ok env.nextId fallbackQuestions 5 (req.difficulty.getD "intermediate")
          15 25 ∧
    generateInterviewQuestions (.text t) = splitLinesNonEmpty t := by
  have hq : generateInterviewQuestions env.questionsResp = fallbackQuestions := by
    rcases hai with h | h <;> rw [h] <;> rfl
  refine ⟨hq, rfl, ?_, by simp [generateInterviewQuestions, ht]⟩
  simp only [startInterview, hfile, hjd, hdiff, startCore, hq,
    if_neg hjd, if_pos hdiff, not_true, if_neg]
  rfl

theorem C3_witness :
    (startInterview [] 1 ⟨"Backend engineer role", none, none, none⟩
        ⟨.failure, .err, 1, ""⟩ 0).1
      = .ok 1 fallbackQuestions 5 "intermediate" 15 25 ∧
    generateInterviewQuestions (.text "not a json array")
      = splitLinesNonEmpty "not a json array" := by
  have h := C3_fallback_questions [] 1 ⟨"Backend engineer role", none, none, none⟩
    ⟨.failure, .err, 1, ""⟩ 0 "not a json array" (by decide) (by decide) rfl
    (Or.inl rfl) rfl
  exact ⟨h.2.2.1, h.2.2.2⟩

/-- C1 counterexample: on a Completed session (completed_at = 20), a
subsequent submit_answer call is accepted (it answers with the completion
payload, not an error) and overwrites the stored answer, feedback, score
and completed_at. -/
theorem C1_counterexample :
    (submitAnswer [completedSession] 7 ⟨1, "new answer", 0⟩
        ⟨.failure, .failure⟩ 99).1
      = .completed fallbackFeedback 75 ∧
    lookupSession (submitAnswer [completedSession] 7 ⟨1, "new answer", 0⟩
        ⟨.failure, .failure⟩ 99).2 1 7
      = some { completedSession with
          answers_given := some [some "new answer"],
          feedback := some fallbackFeedback, score := some 75,
          completed_at := some 99 } := by
  refine ⟨by decide, by decide⟩

/-- C1 (amended): the code has no Completed-state guard — a submit_answer
call on a session whose completed_at is already set is processed exactly
like one on an Active session: the answer is stored, and when the index
reaches the final-question threshold, the feedback, score and completed_at
are regenerated and overwritten. -/
theorem C1_completed_not_guarded (db : List Session) (uid : Int)
    (req : AnswerRequest) (ai : AIEnv) (now : Nat) (s : Session)
    (hfind : lookupSession db req.session_id uid = some s)
    (hcomp : s.completed_at.isSome)
    (hans : jsTrim req.answer ≠ "")
    (hlast : ((s.questions_asked.getD []).length : Int) - 1
      ≤ req.question_index) :
    (submitAnswer db uid req ai now).1
      = .completed (generateInterviewFeedback ai.feedbackResp)
          (calculateInterviewScore ai.scoreResp) ∧
    lookupSession (submitAnswer db uid req ai now).2 req.session_id uid
      = some { s with
          answers_given := some (if 0 ≤ req.question_index then
            setAnswerAt (s.answers_given.getD []) req.question_index.toNat
              (jsTrim req.answer)
            else s.answers_given.getD []),
          feedback := some (generateInterviewFeedback ai.feedbackResp),
          score := some (calculateInterviewScore ai.scoreResp),
          completed_at := some now } :=
  submitAnswer_complete db uid req ai now s hfind hans hlast

theorem C1_witness :
    (submitAnswer [completedSession] 7 ⟨1, "resubmitted", 0⟩
        ⟨.text "great", .text "88"⟩ 55).1
      = .completed "great" 88 := by
  have h := C1_completed_not_guarded [completedSession] 7 ⟨1, "resubmitted", 0⟩
    ⟨.text "great", .text "88"⟩ 55 completedSession (by decide) (by decide)
    (by decide) (by decide)
  rw [h.1]; decide

/-- C2 counterexample: a three-question session with no recorded answers,
submitted at question_index 5 (not equal to N - 1 = 2, and with indices
0 and 1 unanswered), still completes: the code only checks
question_index >= questions.length - 1. -/
theorem C2_counterexample :
    threeQSession.answers_given = none ∧
    (5 : Int) ≠ (3 : Int) - 1 ∧
    (submitAnswer [threeQSession] 7 ⟨2, "only answer", 5⟩
        ⟨.failure, .failure⟩ 99).1
      = .completed fallbackFeedback 75 ∧
    lookupSession (submitAnswer [threeQSession] 7 ⟨2, "only answer", 5⟩
        ⟨.failure, .failure⟩ 99).2 2 7
      = some { threeQSession with
          answers_given := some [none, none, none, none, none,
            some "only answer"],
          feedback := some fallbackFeedback, score := some 75,
          completed_at := some 99 } := by
  refine ⟨rfl, by decide, by decide, by decide⟩

/-- C2 (amended): submit_answer marks the session Completed (sets
completed_at, feedback, score) if and only if question_index >= N - 1 as
integers — regardless of whether any other question has a recorded answer,
and with no once-only guard (a repeated call re-runs the transition). -/
theorem C2_completion_iff (db : List Session) (uid : Int)
    (req : AnswerRequest) (ai : AIEnv) (now : Nat) (s : Session)
    (hfind : lookupSession db req.session_id uid = some s)
    (hans : jsTrim req.answer ≠ "") :
    ((submitAnswer db uid req ai now).1
        = .completed (generateInterviewFeedback ai.feedbackResp)
            (calculateInterviewScore ai.scoreResp)
      ↔ ((s.questions_asked.getD []).length : Int) - 1 ≤ req.question_index) ∧
    (((s.questions_asked.getD []).length : Int) - 1 ≤ req.question_index →
      ∃ s2, lookupSession (submitAnswer db uid req ai now).2
          req.session_id uid = some s2 ∧
        s2.completed_at = some now ∧
        s2.feedback = some (generateInterviewFeedback ai.feedbackResp) ∧
        s2.score = some (calculateInterviewScore ai.scoreResp)) := by
  constructor
  · by_cases hlast : ((s.questions_asked.getD []).length : Int) - 1
        ≤ req.question_index
    · simp only [submitAnswer, hfind, if_neg hans, if_pos hlast]
      simp [hlast]
    · simp only [submitAnswer, hfind, if_neg hans, if_neg hlast]
      simp [hlast]
  · intro hlast
    exact ⟨_, (submitAnswer_complete db uid req ai now s hfind hans hlast).2,
      rfl, rfl, rfl⟩

theorem C2_witness :
    (submitAnswer [threeQSession] 7 ⟨2, "final", 2⟩ ⟨.failure, .failure⟩ 42).1
      = .completed fallbackFeedback 75 := by
  have h := C2_completion_iff [threeQSession] 7 ⟨2, "final", 2⟩
    ⟨.failure, .failure⟩ 42 threeQSession (by decide) (by decide)
  exact h.1.mpr (by decide)

/-- C6: for an Active session with N questions, submitting at any index
i < N - 1 never sets completed_at and answers with
{completed: false, next_question: questions[i+1],
progress: {current: i+1, total: N}}. -/
theorem C6_next_question (db : List Session) (uid sid : Int)
    (answer : String) (i : Int) (ai : AIEnv) (now : Nat) (s : Session)
    (hfind : lookupSession db sid uid = some s)
    (hactive : s.completed_at = none)
    (hans : jsTrim answer ≠ "")
    (hi : i < ((s.questions_asked.getD []).length : Int) - 1) :
    (submitAnswer db uid ⟨sid, answer, i⟩ ai now).1
      = .nextQuestion (jsGet (s.questions_asked.getD []) (i + 1)) (i + 1)
          (s.questions_asked.getD []).length
          (jsRoundPct (i + 1) (s.questions_asked.getD []).length) ∧
    ∃ s2, lookupSession (submitAnswer db uid ⟨sid, answer, i⟩ ai now).2 sid uid
        = some s2 ∧ s2.completed_at = none := by
  have hni : ¬ (((s.questions_asked.getD []).length : Int) - 1 ≤ i) := by
    omega
  refine ⟨by simp only [submitAnswer, hfind, if_neg hans, if_neg hni], ?_⟩
  simp only [submitAnswer, hfind, if_neg hans, if_neg hni]
  have h1 := lookupSession_update db sid uid
    (fun x => { x with answers_given := some (if 0 ≤ i then
      setAnswerAt (s.answers_given.getD []) i.toNat (jsTrim answer)
      else s.answers_given.getD []) })
    (fun _ => rfl) (fun _ => rfl) s hfind
  exact ⟨_, h1, hactive⟩

theorem C6_witness :
    (submitAnswer [threeQSession] 7 ⟨2, "A1", 0⟩ ⟨.failure, .failure⟩ 42).1
      = .nextQuestion (some "Q2") 1 3 33 := by
  have h := C6_next_question [threeQSession] 7 2 "A1" 0 ⟨.failure, .failure⟩
    42 threeQSession (by decide) rfl (by decide) (by decide)
  rw [h.1]; decide

/-- C8: resubmitting an answer at an already-answered index i < N - 1
overwrites answers[i] with the new (trimmed) value, leaves every other
answer slot and every other session field unchanged, keeps the session
Active, and answers with the next-question payload. -/
theorem C8_resubmit_overwrites (db : List Session) (uid sid : Int)
    (answer old : String) (i : Nat) (ai : AIEnv) (now : Nat) (s : Session)
    (hfind : lookupSession db sid uid = some s)
    (hactive : s.completed_at = none)
    (hans : jsTrim answer ≠ "")
    (hi : (i : Int) < ((s.questions_asked.getD []).length : Int) - 1)
    (hheld : (s.answers_given.getD []).get? i = some (some old)) :
    lookupSession (submitAnswer db uid ⟨sid, answer, (i : Int)⟩ ai now).2
        sid uid
      = some { s with
          answers_given := some ((s.answers_given.getD []).set i (some (jsTrim answer))) } ∧
    ((s.answers_given.getD []).set i (some (jsTrim answer))).get? i
      = some (some (jsTrim answer)) ∧
    (∀ j, j ≠ i →
      ((s.answers_given.getD []).set i (some (jsTrim answer))).get? j
        = (s.answers_given.getD []).get? j) ∧
    s.completed_at = none ∧
    (∃ q cur tot pct,
      (submitAnswer db uid ⟨sid, answer, (i : Int)⟩ ai now).1
        = .nextQuestion q cur tot pct) := by
  have hlen : i < (s.answers_given.getD []).length := by
    rcases List.get?_eq_some.mp hheld with ⟨h, _⟩
    exact h
  have hni : ¬ (((s.questions_asked.getD []).length : Int) - 1 ≤ (i : Int)) := by
    omega
  refine ⟨?_, ?_, ?_, hactive, ?_⟩
  · simp only [submitAnswer, hfind, if_neg hans, if_neg hni]
    have h1 := lookupSession_update db sid uid
      (fun x => { x with answers_given := some (if 0 ≤ (i : Int) then
        setAnswerAt (s.answers_given.getD []) ((i : Int)).toNat (jsTrim answer)
        else s.answers_given.getD []) })
      (fun _ => rfl) (fun _ => rfl) s hfind
    rw [h1]
    simp [setAnswerAt, hlen]
  · exact List.get?_set_eq_of_lt _ hlen
  · intro j hj
    exact List.get?_set_ne _ _ (fun h => hj h.symm)
  · exact ⟨jsGet (s.questions_asked.getD []) ((i : Int) + 1), (i : Int) + 1,
      (s.questions_asked.getD []).length,
      jsRoundPct ((i : Int) + 1) (s.questions_asked.getD []).length,
      by simp only [submitAnswer, hfind, if_neg hans, if_neg hni]⟩

theorem C8_witness :
    lookupSession (submitAnswer [answeredSession] 7 ⟨4, "second try", 0⟩
        ⟨.failure, .failure⟩ 42).2 4 7
      = some { answeredSession with
          answers_given := some [some "second try"] } ∧
    (submitAnswer [answeredSession] 7 ⟨4, "second try", 0⟩
        ⟨.failure, .failure⟩ 42).1
      = .nextQuestion (some "Q2") 1 3 33 := by
  have h := C8_resubmit_overwrites [answeredSession] 7 4 "second try"
    "first try" 0 ⟨.failure, .failure⟩ 42 answeredSession (by decide) rfl
    (by decide) (by decide) (by decide)
  constructor
  · exact h.1
  · decide

/-- C10: when the stored questions list is empty (or still null), any
submit_answer call with question_index >= -1 immediately takes the
completion path: the feedback and score calls run and the session is
marked Completed. -/
theorem C10_empty_questions_complete (db : List Session) (uid sid : Int)
    (answer : String) (i : Int) (ai : AIEnv) (now : Nat) (s : Session)
    (hfind : lookupSession db sid uid = some s)
    (hq : s.questions_asked = none ∨ s.questions_asked = some [])
    (hans : jsTrim answer ≠ "")
    (hi : -1 ≤ i) :
    (submitAnswer db uid ⟨sid, answer, i⟩ ai now).1
      = .completed (generateInterviewFeedback ai.feedbackResp)
          (calculateInterviewScore ai.scoreResp) ∧
    ∃ s2, lookupSession (submitAnswer db uid ⟨sid, answer, i⟩ ai now).2 sid uid
        = some s2 ∧ s2.completed_at = some now ∧
        s2.feedback = some (generateInterviewFeedback ai.feedbackResp) ∧
        s2.score = some (calculateInterviewScore ai.scoreResp) := by
  have hlen : (s.questions_asked.getD []).length = 0 := by
    rcases hq with h | h <;> simp [h]
  have hlast : ((s.questions_asked.getD []).length : Int) - 1 ≤ i := by
    rw [hlen]
    omega
  have h := submitAnswer_complete db uid ⟨sid, answer, i⟩ ai now s hfind hans
    hlast
  exact ⟨h.1, _, h.2, rfl, rfl, rfl⟩

theorem C10_witness :
    (submitAnswer [emptyQSession] 7 ⟨5, "hello", 0⟩ ⟨.failure, .failure⟩ 42).1
      = .completed fallbackFeedback 75 := by
  have h := C10_empty_questions_complete [emptyQSession] 7 5 "hello" 0
    ⟨.failure, .failure⟩ 42 emptyQSession (by decide) (Or.inr rfl)
    (by decide) (by decide)
  exact h.1

/-- C7: a POST /answer or GET /session/:id request whose session id has no
row owned by the caller — whether because no row with that id exists or
because every such row belongs to a different user — receives the bare 404
response, with no session data and no change to the database; the response
is the same constant in both cases. -/
theorem C7_absent_or_foreign_404 (db : List Session) (uid sid : Int)
    (req : AnswerRequest) (ai : AIEnv) (now : Nat)
    (hreq : req.session_id = sid)
    (hans : jsTrim req.answer ≠ "")
    (hforeign : ∀ s ∈ db, s.id = sid → s.user_id ≠ uid) :
    (submitAnswer db uid req ai now).1 = .notFound ∧
    (submitAnswer db uid req ai now).2 = db ∧
    getSession db uid sid = .notFound := by
  have hnone : lookupSession db sid uid = none :=
    lookupSession_none db sid uid hforeign
  subst hreq
  refine ⟨?_, ?_, ?_⟩
  · simp only [submitAnswer, hnone, if_neg hans]
  · simp only [submitAnswer, hnone, if_neg hans]
  · simp only [getSession, hnone]

theorem C7_witness :
    (submitAnswer [foreignSession] 7 ⟨3, "A", 0⟩ ⟨.failure, .failure⟩ 0).1
      = .notFound ∧
    (submitAnswer ([] : List Session) 7 ⟨3, "A", 0⟩ ⟨.failure, .failure⟩ 0).1
      = .notFound ∧
    getSession [foreignSession] 7 3 = .notFound := by
  have h1 := C7_absent_or_foreign_404 [foreignSession] 7 3 ⟨3, "A", 0⟩
    ⟨.failure, .failure⟩ 0 rfl (by decide) (by decide)
  have h2 := C7_absent_or_foreign_404 ([] : List Session) 7 3 ⟨3, "A", 0⟩
    ⟨.failure, .failure⟩ 0 rfl (by decide) (by decide)
  exact ⟨h1.1, h2.1, h1.2.2⟩

/-- C9: a start request whose resume file has extension .doc passes the
multer fileFilter, but extractTextFromFile then throws, so the request is
answered with the 500 error and no interview_sessions row is inserted (the
extraction runs before the INSERT). -/
theorem C9_doc_resume_500 (db : List Session) (uid : Int)
    (req : StartRequest) (env : StartEnv) (now : Nat) (name : String)
    (hjd : jsTrim req.jd_text ≠ "")
    (hdiff : validDifficulty req.difficulty)
    (hfile : req.file = some name)
    (hext : jsToLower (extname name) = ".doc") :
    fileFilter name = true ∧
    (startInterview db uid req env now).1 = .serverError ∧
    (startInterview db uid req env now).2 = db := by
  have hff : fileFilter name = true := by
    simp [fileFilter, hext, allowedTypes]
  have hex : extractTextFromFile name env.extractOutcome
      = .error "Failed to extract text from file" := by
    simp [extractTextFromFile, hext]
  refine ⟨hff, ?_, ?_⟩ <;>
    simp [startInterview, hfile, hjd, hdiff, hex]

theorem C9_witness :
    fileFilter "resume.doc" = true ∧
    (startInterview [] 7 ⟨"Backend engineer role", none, none,
        some "resume.doc"⟩ ⟨.failure, .ok "text", 1, "stored.doc"⟩ 0).1
      = .serverError ∧
    (startInterview [] 7 ⟨"Backend engineer role", none, none,
        some "resume.doc"⟩ ⟨.failure, .ok "text", 1, "stored.doc"⟩ 0).2
      = [] := by
  exact C9_doc_resume_500 [] 7 ⟨"Backend engineer role", none, none,
    some "resume.doc"⟩ ⟨.failure, .ok "text", 1, "stored.doc"⟩ 0 "resume.doc"
    (by decide) (by decide) rfl (by decide)

end Jarvis
